import Mathlib

/-!
Verification of the prompt-to-SQL resolution pipeline of the
marketing-agent backend.

The Python sources embedded here are
`backend/app/services/prompt_sql_service.py` (class `PromptToSqlService`)
and `backend/app/services/llm_service.py` (class `LLMService`).

Python strings are modelled as `List Char` (`Str`), so that all string
operations (lower/upper casing, substring tests, whitespace splitting)
are structurally recursive and fully computable by the kernel.  The
relational store, the difflib `get_close_matches` helper, the external
LLM providers and the analytics service are external collaborators; they
enter the model as explicit function parameters (oracles).  Each
resolution path also returns the list of SQL statements it submitted to
the store, in order, so that claims about "what gets executed" are
directly expressible.
-/

namespace MarketingAgent

/-- Python `str` modelled as a list of characters. -/
abbrev Str := List Char

/-- Python `s.lower()` (ASCII-relevant part, via `Char.toLower`). -/
def lowerStr (s : Str) : Str := s.map Char.toLower

/-- Python `s.upper()` (ASCII-relevant part, via `Char.toUpper`). -/
def upperStr (s : Str) : Str := s.map Char.toUpper

/-- Prefix test: `startsWith needle hay` is true iff `needle` is a prefix of `hay`. -/
def startsWith : Str → Str → Bool
  | [], _ => true
  | _ :: _, [] => false
  | a :: as, b :: bs => a == b && startsWith as bs

/-- Python `needle in hay` for strings: substring occurrence. -/
def containsSub (needle : Str) : Str → Bool
  | [] => needle == []
  | c :: rest => startsWith needle (c :: rest) || containsSub needle rest

/-- Python `s.split()`: split on whitespace, dropping empty pieces. -/
def pyWords (s : Str) : List Str :=
  (s.splitOnP Char.isWhitespace).filter (fun w => w ≠ [])

/-- One row of the dataset registry after parsing, i.e. one ingested
table's metadata as consumed by the resolver (`_load_registry` output). -/
structure Dataset where
  table_name : Str
  business : Str
  category : Str
  dataset_name : Str
  columns : List Str
deriving Repr, DecidableEq

/-- A result row: a column-keyed mapping, values rendered as strings. -/
abbrev Row := List (Str × Str)

/-- Source `PromptToSqlService._is_safe_sql`: the forbidden-keyword list. -/
def dangerousKeywords : List Str :=
  ["DROP".data, "DELETE".data, "INSERT".data, "UPDATE".data,
   "ALTER".data, "TRUNCATE".data, "CREATE".data, "EXEC".data]

/-- Source `PromptToSqlService._is_safe_sql`: true iff the uppercased statement
contains none of the eight forbidden keywords as a substring. -/
def is_safe_sql (sql : Str) : Bool :=
  !(dangerousKeywords.any (fun kw => containsSub kw (upperStr sql)))

/-- The module-level `_normalize` helper: lower-case and replace
underscores by spaces. -/
def normalize (s : Str) : Str :=
  (lowerStr s).map (fun c => if c == '_' then ' ' else c)

/-- Date/time-like tokens scanned for by `_build_query`. -/
def dateTokens : List Str :=
  ["date".data, "day".data, "occurred_at".data, "week".data, "time".data]

/-- Helper of `_build_query`: first column whose name contains a date-like token. -/
def findOrderColumn (columns : List Str) : Option Str :=
  columns.find? (fun c => dateTokens.any (fun t => containsSub t c))

/-- Double-quote a SQL identifier, as the f-strings in the source do. -/
def quoteStr (s : Str) : Str := '"' :: (s ++ ['"'])

/-- Source `PromptToSqlService._build_query`: the fixed heuristic query template
`SELECT * FROM "<table>"[ ORDER BY "<col>" DESC] LIMIT 50;`. -/
def build_query (ds : Dataset) : Str :=
  let orderClause : Str :=
    match findOrderColumn ds.columns with
    | some c => " ORDER BY ".data ++ quoteStr c ++ " DESC".data
    | none => []
  "SELECT * FROM ".data ++ quoteStr ds.table_name ++ orderClause ++ " LIMIT 50;".data

/-- Table of `_detect_kpi_metrics`: the metric → keyword-phrase table, in the
source's (insertion) order. -/
def keywordMap : List (Str × List Str) :=
  [("revenue".data, ["revenue".data, "total revenue".data, "total sales".data, "sales".data]),
   ("aov".data, ["aov".data, "average order value".data]),
   ("roas".data, ["roas".data, "return on ad spend".data]),
   ("conversion_rate".data, ["conversion rate".data, "cr".data, "conversions".data]),
   ("sessions".data, ["sessions".data, "traffic".data, "visits".data])]

/-- The five known metric kinds, as assigned on the "kpi"/"all metrics"
override branch of `_detect_kpi_metrics`. -/
def allFiveMetrics : List Str :=
  ["revenue".data, "aov".data, "roas".data, "conversion_rate".data, "sessions".data]

/-- Table of `_detect_kpi_metrics`: the grouping/breakdown disqualifier list. -/
def disqualifiers : List Str :=
  [" group".data, " grouped".data, " by ".data, " per ".data, " breakdown".data,
   " each ".data, " vs ".data, " over ".data, " trend".data, " split".data,
   " segment".data, " cohort".data, " channel".data]

/-- Table of `_detect_kpi_metrics`: the summary-cue word list of the source
(note it contains "overall" in addition to the six words the spec lists). -/
def summaryCues : List Str :=
  ["total".data, "overall".data, "kpi".data, "overview".data,
   "dashboard".data, "summary".data, "aggregate".data]

/-- The summary-cue list exactly as the spec's ambiguity-guard sentence
states it (for comparison with `summaryCues`, which is the source's list). -/
def specSummaryCues : List Str :=
  ["total".data, "overview".data, "summary".data,
   "dashboard".data, "aggregate".data, "kpi".data]

/-- Source `PromptToSqlService._detect_kpi_metrics`: keyword match, then the
"kpi"/"all metrics" override, then the disqualifier check, then the
ambiguity guard (no summary cue and more than 8 words). -/
def detect_kpi_metrics (prompt : Str) : List Str :=
  let pl := lowerStr prompt
  let detected0 :=
    (keywordMap.filter (fun mk => mk.2.any (fun k => containsSub k pl))).map (fun mk => mk.1)
  let detected :=
    if containsSub "kpi".data pl || containsSub "all metrics".data pl then
      allFiveMetrics
    else detected0
  if detected.isEmpty then []
  else if disqualifiers.any (fun t => containsSub t pl) then []
  else if !(summaryCues.any (fun c => containsSub c pl))
          && decide (8 < (pyWords pl).length) then []
  else detected

/-- A fuzzy-match score of `_select_dataset`, kept as an exact fraction
`num / den` (the source computes `len(overlap) / max(len(words), 1)` in
floating point; only the ordering of scores is ever used, and for these
small integer numerators over a common positive denominator the exact
and floating orderings agree). -/
structure Score where
  num : Nat
  den : Nat
deriving Repr, DecidableEq

/-- Strict comparison of two fractional scores by cross-multiplication. -/
def scoreLt (a b : Score) : Bool := decide (a.num * b.den < b.num * a.den)

/-- Stable insertion step for a descending sort: `x` is placed before the
first element strictly smaller than it, so that elements comparing equal
keep their original relative order — the behaviour of Python's stable
`list.sort(key=..., reverse=True)`. -/
def insertDescBy {α : Type} (lt : α → α → Bool) (x : α) : List α → List α
  | [] => [x]
  | y :: ys => if lt x y then y :: insertDescBy lt x ys else x :: y :: ys

/-- Stable descending sort (model of `list.sort(key=..., reverse=True)`). -/
def sortDescBy {α : Type} (lt : α → α → Bool) (l : List α) : List α :=
  l.foldr (insertDescBy lt) []

/-- Python `len(set(a).intersection(b))` for two word lists: the number of
distinct words of `a` that occur in `b`. -/
def wordOverlap (a b : List Str) : Nat :=
  (a.dedup.filter (fun w => b.contains w)).length

/-- Source `PromptToSqlService._select_dataset`.  The difflib call
`get_close_matches(prompt_norm, candidates, n=1, cutoff=0)` is an
external library helper and enters as the oracle `bestMatch` (returning
`none` models an empty reply, in which case the score stays `0.0` as in
the source).  Returns `none` exactly when `datasets` is empty, where the
source's `datasets[0]` would raise `IndexError`. -/
def select_dataset (bestMatch : Str → List Str → Option Str)
    (prompt : Str) (datasets : List Dataset) : Option Dataset :=
  let prompt_norm := normalize prompt
  let pwords := pyWords prompt_norm
  let den := max pwords.length 1
  let scores := datasets.map (fun ds =>
    let candidates := [ds.table_name, ds.dataset_name,
      ds.business ++ ' ' :: ds.dataset_name]
    let normalizedCandidates := candidates.map normalize
    let score : Score :=
      match bestMatch prompt_norm normalizedCandidates with
      | some m => ⟨wordOverlap (pyWords m) pwords, den⟩
      | none => ⟨0, den⟩
    (score, ds))
  ((sortDescBy (fun a b => scoreLt a.1 b.1) scores).head?).map (fun st => st.2)

/-- The typed errors a resolution request can end in; each constructor
models one class of Python exception raised by `execute_prompt`. -/
inductive ResolveError where
  /-- Models `ValueError("No datasets have been ingested yet.")` -/
  | noData
  /-- Models `ValueError("Generated SQL contains unsafe operations")` -/
  | unsafeSql
  /-- Models the `RuntimeError` propagated out of `LLMService.generate_sql` -/
  | generationError (msg : Str)
  /-- Models `ValueError("SQL execution failed: ...")` from the LLM path -/
  | sqlExecution (msg : Str)
  /-- an uncaught store exception (heuristic path has no try/except) -/
  | storeError (msg : Str)
  /-- Models the `IndexError` from `datasets[0]` on an empty list -/
  | indexError
deriving Repr, DecidableEq

/-- The dictionary `execute_prompt` returns: `PromptResolutionResult`.
The heuristic path's dictionary carries no `model` key, hence `Option`. -/
structure PromptResult where
  table_name : Str
  business : Str
  dataset_name : Str
  sql : Str
  columns : List Str
  rows : List Row
  generated_by : Str
  model : Option Str
deriving Repr, DecidableEq

/-- The dictionary `LLMService.generate_sql` returns.  `model` and
`provider` are `Option` so that the source's `.get(key, default)`
accesses are modelled exactly. -/
structure LlmResult where
  sql : Str
  model : Option Str
  provider : Option Str
deriving Repr, DecidableEq

/-- Source `PromptToSqlService._extract_table_from_sql`: first registered
dataset whose table name occurs uppercased in the uppercased SQL or
double-quoted in the raw SQL; otherwise `datasets[0]` (`none` models the
`{}` returned for an empty registry). -/
def extract_table_from_sql (sql : Str) (datasets : List Dataset) : Option Dataset :=
  match datasets.find? (fun d =>
      containsSub (upperStr d.table_name) (upperStr sql)
        || containsSub (quoteStr d.table_name) sql) with
  | some d => some d
  | none => datasets.head?

/-- ASCII single quote, used by the enriched error message f-string. -/
def squote : Char := Char.ofNat 39

/-- The message of the `ValueError` raised when SQL execution fails on
the LLM path (`_execute_prompt_llm`, `except` branch): enriched with the
attributed table's column list when the store error looks schema-related
and the column list is non-empty. -/
def execution_error_message (error_msg : Str) (table_info : Option Dataset) : Str :=
  let lowerMsg := lowerStr error_msg
  let cols := (table_info.map Dataset.columns).getD []
  let tname := (table_info.map Dataset.table_name).getD "unknown".data
  if (containsSub "no such column".data lowerMsg
        || containsSub "no such table".data lowerMsg) && !cols.isEmpty then
    ("SQL execution failed: ".data ++ error_msg
      ++ "\nAvailable columns for table ".data
      ++ [squote] ++ tname ++ [squote] ++ ": ".data)
      ++ List.intercalate ", ".data cols
  else
    "SQL execution failed: ".data ++ error_msg

/-- The part of `_execute_prompt_llm` that runs after the LLM call
returned `llm` (source lines 128-163): safety check, table attribution,
execution, error enrichment, result assembly.  `execQ` is the store
(`connection.execute`); the second component is the list of statements
submitted to the store by this stage. -/
def execute_prompt_llm_post (execQ : Str → Except Str (List Row))
    (llm : LlmResult) (datasets : List Dataset) :
    Except ResolveError PromptResult × List Str :=
  if !(is_safe_sql llm.sql) then (.error .unsafeSql, [])
  else
    let table_info := extract_table_from_sql llm.sql datasets
    match execQ llm.sql with
    | .error msg =>
        (.error (.sqlExecution (execution_error_message msg table_info)), [llm.sql])
    | .ok rows =>
        (.ok
          { table_name := (table_info.map Dataset.table_name).getD []
            business := (table_info.map Dataset.business).getD []
            dataset_name := (table_info.map Dataset.dataset_name).getD []
            sql := llm.sql
            columns := match rows.head? with
              | some r => r.map (fun kv => kv.1)
              | none => []
            rows := rows
            generated_by := llm.provider.getD "llm".data
            model := some (llm.model.getD []) },
        [llm.sql])

/-- The sample-row probe statement of `_execute_prompt_llm`
(`SELECT * FROM "<first table>" LIMIT 3`). -/
def sample_probe_sql (ds : Dataset) : Str :=
  "SELECT * FROM ".data ++ quoteStr ds.table_name ++ " LIMIT 3".data

/-- The sample rows fetched by `_execute_prompt_llm`'s probe; the bare
`except: pass` keeps `sample_rows = []` on any failure, including the
`IndexError` of `datasets[0]` on an empty registry. -/
def sample_rows_of (execQ : Str → Except Str (List Row))
    (datasets : List Dataset) : List Row :=
  match datasets.head? with
  | some first =>
    match execQ (sample_probe_sql first) with
    | .ok rows => rows
    | .error _ => []
  | none => []

/-- The statements the probe submits to the store (none when the
registry is empty, since `datasets[0]` raises before any query is
built). -/
def probe_trace (datasets : List Dataset) : List Str :=
  match datasets.head? with
  | some first => [sample_probe_sql first]
  | none => []

/-- Source `PromptToSqlService._execute_prompt_llm` in full: probe the first
table for sample rows, call the LLM gateway `gen`, then the post stage.
The second component is the ordered list of statements submitted to the
store. -/
def execute_prompt_llm (execQ : Str → Except Str (List Row))
    (gen : Str → List Dataset → List Row → Except Str LlmResult)
    (prompt : Str) (datasets : List Dataset) :
    Except ResolveError PromptResult × List Str :=
  match gen prompt datasets (sample_rows_of execQ datasets) with
  | .error msg => (.error (.generationError msg), probe_trace datasets)
  | .ok llm =>
    let post := execute_prompt_llm_post execQ llm datasets
    (post.1, probe_trace datasets ++ post.2)

/-- Source `PromptToSqlService._execute_prompt_heuristic`: select a dataset,
build the template query, execute it — with no safety check and no
try/except (a store failure propagates raw). -/
def execute_prompt_heuristic (execQ : Str → Except Str (List Row))
    (bestMatch : Str → List Str → Option Str)
    (prompt : Str) (datasets : List Dataset) :
    Except ResolveError PromptResult × List Str :=
  match select_dataset bestMatch prompt datasets with
  | none => (.error .indexError, [])
  | some ds =>
    let sql := build_query ds
    match execQ sql with
    | .error msg => (.error (.storeError msg), [sql])
    | .ok rows =>
      (.ok
        { table_name := ds.table_name
          business := ds.business
          dataset_name := ds.dataset_name
          sql := sql
          columns := ds.columns
          rows := rows
          generated_by := "heuristic".data
          model := none },
      [sql])

/-- Source `PromptToSqlService._execute_kpi_prompt`: fixed KPI-shortcut result.
`kpiVal metric` renders `round(query_kpis(...).get(metric, 0.0), 4)`;
the analytics service is an external collaborator here. -/
def execute_kpi_prompt (kpiVal : Str → Str) (metrics : List Str) : PromptResult :=
  { table_name := "kpi_metrics".data
    business := "All Businesses".data
    dataset_name := "Aggregated KPIs".data
    sql := "/* Aggregated via AnalyticsService: no direct SQL executed */".data
    columns := ["metric".data, "value".data]
    rows := metrics.map (fun m => [("metric".data, m), ("value".data, kpiVal m)])
    generated_by := "kpi".data
    model := some [] }

/-- Source `PromptToSqlService.execute_prompt` after the registry has been
loaded (the registry reader is modelled separately below): empty-registry
error, KPI shortcut, then the LLM path when a provider is bound
(`use_llm`) and otherwise the heuristic path.  The second component is
the ordered list of SQL statements the resolver submitted to the store. -/
def execute_prompt (execQ : Str → Except Str (List Row))
    (gen : Str → List Dataset → List Row → Except Str LlmResult)
    (bestMatch : Str → List Str → Option Str)
    (kpiVal : Str → Str)
    (use_llm : Bool) (prompt : Str) (datasets : List Dataset) :
    Except ResolveError PromptResult × List Str :=
  if datasets.isEmpty then (.error .noData, [])
  else
    let metrics := detect_kpi_metrics prompt
    if !metrics.isEmpty then (.ok (execute_kpi_prompt kpiVal metrics), [])
    else if use_llm then execute_prompt_llm execQ gen prompt datasets
    else execute_prompt_heuristic execQ bestMatch prompt datasets

/-- The `columns` cell of one raw registry row: either already a list
(not a `str`, passed through unchanged) or a serialized string that
`_load_registry` feeds to `json.loads`. -/
inductive ColumnsField where
  | parsed (cols : List Str)
  | serialized (s : Str)
deriving Repr, DecidableEq

/-- One raw row of the `dataset_registry` table as fetched by
`_load_registry` before the columns field is deserialized. -/
structure RegistryRow where
  table_name : Str
  business : Str
  category : Str
  dataset_name : Str
  columns : ColumnsField
deriving Repr, DecidableEq

/-- The per-row body of `_load_registry`'s loop: deserialize the columns
field when it is a string.  `jsonLoads` models `json.loads` restricted
to this payload; `none` models a raised `JSONDecodeError`, which the
loop does not catch (there is no try/except around it in the source), so
it surfaces as an error carrying the offending payload. -/
def parse_registry_row (jsonLoads : Str → Option (List Str))
    (r : RegistryRow) : Except Str Dataset :=
  match r.columns with
  | .parsed cols =>
      .ok ⟨r.table_name, r.business, r.category, r.dataset_name, cols⟩
  | .serialized s =>
      match jsonLoads s with
      | some cols => .ok ⟨r.table_name, r.business, r.category, r.dataset_name, cols⟩
      | none => .error s

/-- Source `PromptToSqlService._load_registry` after the rows have been fetched:
the deserialization loop, which aborts at the first malformed columns
field (no per-row exception handling exists in the source). -/
def load_registry (jsonLoads : Str → Option (List Str)) :
    List RegistryRow → Except Str (List Dataset)
  | [] => .ok []
  | r :: rs =>
    match parse_registry_row jsonLoads r with
    | .error e => .error e
    | .ok d =>
      match load_registry jsonLoads rs with
      | .error e => .error e
      | .ok ds => .ok (d :: ds)

/-- Whether a registry load succeeded (i.e. no exception escaped). -/
def registryLoadOk (x : Except Str (List Dataset)) : Bool :=
  match x with
  | .ok _ => true
  | .error _ => false

/-- The per-table relevance score of `LLMService._filter_relevant_tables`:
+2 per distinct prompt word longer than 3 characters occurring in the
table name / business / category / dataset name, else +1 if it occurs in
some column name.  (The source iterates a Python `set` of words; the sum
is order-independent, so iterating the deduplicated word list is exact.) -/
def filter_score (pwords : List Str) (t : Dataset) : Nat :=
  pwords.foldl (fun acc w =>
    if decide (3 < w.length) then
      if containsSub w (lowerStr t.table_name) || containsSub w (lowerStr t.business)
          || containsSub w (lowerStr t.category) || containsSub w (lowerStr t.dataset_name) then
        acc + 2
      else if t.columns.any (fun c => containsSub w (lowerStr c)) then acc + 1
      else acc
    else acc) 0

/-- Scoring stage of `_filter_relevant_tables`: every available table
paired with its relevance score. -/
def scored_tables (prompt : Str) (available : List Dataset) : List (Nat × Dataset) :=
  available.map (fun t => (filter_score ((pyWords (lowerStr prompt)).dedup) t, t))

/-- Selection stage of `_filter_relevant_tables`:
`[table for _, table in scored_tables[:max_tables]]` after the stable
descending sort. -/
def top_relevant (prompt : Str) (available : List Dataset) (max_tables : Nat) :
    List Dataset :=
  ((sortDescBy (fun a b => decide (a.1 < b.1))
      (scored_tables prompt available)).take max_tables).map (fun st => st.2)

/-- Source `LLMService._filter_relevant_tables`: score every table, stable-sort
descending, keep the top `max_tables`; if that slice is empty fall back
to the first available table, and as a last resort to
`available_tables[:max_tables]`. -/
def filter_relevant_tables (prompt : Str) (available : List Dataset)
    (max_tables : Nat) : List Dataset :=
  let relevant := top_relevant prompt available max_tables
  let relevant2 :=
    if relevant.isEmpty && !available.isEmpty then available.take 1 else relevant
  if relevant2.isEmpty then available.take max_tables else relevant2

/-! ## Concrete fixtures used by witnesses and counterexamples -/

/-- The registry row of the spec's end-to-end scenario (§8). -/
def dsAcme : Dataset :=
  ⟨"acme_campaigns_2024".data, "Acme".data, "campaigns".data, "Campaigns 2024".data,
   ["date".data, "revenue".data, "orders".data]⟩

/-- A registered table whose name contains the forbidden keyword UPDATE
as a substring (a perfectly legitimate ingested dataset name). -/
def dsUpd : Dataset :=
  ⟨"campaign_updates".data, "Acme".data, "campaigns".data, "Campaign Updates".data,
   ["date".data, "revenue".data]⟩

/-- A store oracle on which every statement succeeds with zero rows. -/
def execOk : Str → Except Str (List Row) := fun _ => .ok []

/-- A `get_close_matches` oracle returning the first candidate. -/
def bmHead : Str → List Str → Option Str := fun _ cs => cs.head?

/-- A KPI-value oracle rendering every metric as `0.0`. -/
def kpiZero : Str → Str := fun _ => "0.0".data

/-- An LLM gateway whose provider call always fails. -/
def genNone : Str → List Dataset → List Row → Except Str LlmResult :=
  fun _ _ _ => .error "no provider".data

/-- An LLM gateway bound to the local-model provider, returning a safe
query over the spec-scenario table (provider tag "ollama", as
`_generate_sql_ollama` reports it). -/
def genOllama : Str → List Dataset → List Row → Except Str LlmResult :=
  fun _ _ _ => .ok ⟨"SELECT * FROM \"acme_campaigns_2024\" LIMIT 50".data,
    some "llama3".data, some "ollama".data⟩

/-- A long prompt (10 words) with the cue word "overall" — which the
source treats as a summary cue but the spec's C5 list omits — and the
metric keyword "revenue". -/
def c5prompt : Str :=
  "overall revenue numbers for this whole year please thank you".data

/-- The spec's end-to-end scenario prompt: disqualified from the KPI
shortcut by " by ", so it falls through to SQL generation. -/
def c6prompt : Str := "show me revenue by month for 2024".data

/-- The result `execute_prompt` produces for `c6prompt` over `[dsAcme]`
with the `genOllama` gateway and the `execOk` store. -/
def c6result : PromptResult :=
  { table_name := "acme_campaigns_2024".data
    business := "Acme".data
    dataset_name := "Campaigns 2024".data
    sql := "SELECT * FROM \"acme_campaigns_2024\" LIMIT 50".data
    columns := []
    rows := []
    generated_by := "ollama".data
    model := some "llama3".data }

/-- A `json.loads` oracle on which every payload is malformed. -/
def jsonFail : Str → Option (List Str) := fun _ => none

/-- A registry row whose columns cell is already a parsed list. -/
def regRowGood : RegistryRow :=
  ⟨"t1".data, "b".data, "c".data, "d1".data, .parsed ["a".data, "b".data]⟩

/-- A registry row whose serialized columns cell fails to parse. -/
def regRowBad : RegistryRow :=
  ⟨"t2".data, "b".data, "c".data, "d2".data, .serialized "not json".data⟩

/-! ## Helper lemmas -/

theorem startsWith_refl (s : Str) : startsWith s s = true := by
  induction s with
  | nil => rfl
  | cons c cs ih => simp [startsWith, ih]

theorem containsSub_self (n : Str) : containsSub n n = true := by
  cases n with
  | nil => rfl
  | cons c cs => simp [containsSub, startsWith_refl]

/-- A string contains every suffix of itself. -/
theorem containsSub_append_self (a n : Str) : containsSub n (a ++ n) = true := by
  induction a with
  | nil => simpa using containsSub_self n
  | cons c cs ih => simp [containsSub, ih]

theorem length_insertDescBy {α : Type} (lt : α → α → Bool) (x : α) (l : List α) :
    (insertDescBy lt x l).length = l.length + 1 := by
  induction l with
  | nil => rfl
  | cons y ys ih =>
    unfold insertDescBy
    split <;> simp [ih]

theorem length_sortDescBy {α : Type} (lt : α → α → Bool) (l : List α) :
    (sortDescBy lt l).length = l.length := by
  induction l with
  | nil => rfl
  | cons y ys ih =>
    unfold sortDescBy at ih ⊢
    simp [List.foldr_cons, length_insertDescBy, ih]

theorem top_relevant_length (prompt : Str) (available : List Dataset)
    (max_tables : Nat) :
    (top_relevant prompt available max_tables).length
      = min max_tables available.length := by
  unfold top_relevant scored_tables
  rw [List.length_map, List.length_take, length_sortDescBy, List.length_map]

/-- A successful post-stage result carries the provider tag the LLM
gateway's dictionary reported, or "llm" when the key is absent. -/
theorem llm_post_ok_generated_by (execQ : Str → Except Str (List Row))
    (llm : LlmResult) (datasets : List Dataset) (r : PromptResult)
    (hok : (execute_prompt_llm_post execQ llm datasets).1 = .ok r) :
    r.generated_by = llm.provider.getD "llm".data := by
  unfold execute_prompt_llm_post at hok
  cases hsafe : is_safe_sql llm.sql with
  | false => rw [hsafe] at hok; simp at hok
  | true =>
    rw [hsafe] at hok
    simp only [Bool.not_true, Bool.false_eq_true, if_false] at hok
    cases hq : execQ llm.sql with
    | error m => rw [hq] at hok; simp at hok
    | ok rows =>
      rw [hq] at hok
      simp only [Except.ok.injEq] at hok
      rw [← hok]

/-- A successful heuristic-path result is always tagged "heuristic". -/
theorem heuristic_ok_generated_by (execQ : Str → Except Str (List Row))
    (bestMatch : Str → List Str → Option Str) (prompt : Str)
    (datasets : List Dataset) (r : PromptResult)
    (hok : (execute_prompt_heuristic execQ bestMatch prompt datasets).1 = .ok r) :
    r.generated_by = "heuristic".data := by
  unfold execute_prompt_heuristic at hok
  cases hs : select_dataset bestMatch prompt datasets with
  | none => rw [hs] at hok; simp at hok
  | some ds =>
    rw [hs] at hok
    simp only [] at hok
    cases hq : execQ (build_query ds) with
    | error m => rw [hq] at hok; simp at hok
    | ok rows =>
      rw [hq] at hok
      simp only [Except.ok.injEq] at hok
      rw [← hok]

/-- A successful LLM-path result gets its tag from the gateway reply. -/
theorem llm_path_ok_provider (execQ : Str → Except Str (List Row))
    (gen : Str → List Dataset → List Row → Except Str LlmResult)
    (prompt : Str) (datasets : List Dataset) (r : PromptResult)
    (hok : (execute_prompt_llm execQ gen prompt datasets).1 = .ok r) :
    ∃ llm, gen prompt datasets (sample_rows_of execQ datasets) = .ok llm
      ∧ r.generated_by = llm.provider.getD "llm".data := by
  unfold execute_prompt_llm at hok
  cases hg : gen prompt datasets (sample_rows_of execQ datasets) with
  | error m => rw [hg] at hok; simp at hok
  | ok llm =>
    rw [hg] at hok
    simp only [] at hok
    exact ⟨llm, rfl, llm_post_ok_generated_by execQ llm datasets r hok⟩

/-! ## Claims -/

/-- C2.  On the LLM generation path, the resolver raises the unsafe-SQL
error exactly when the uppercased generated statement contains one of
the eight forbidden keywords as a substring (syntactic validity plays no
role), and in that case the stage submits no statement to the store: the
generated SQL is never executed. -/
theorem unsafe_sql_rejection_iff (execQ : Str → Except Str (List Row))
    (llm : LlmResult) (datasets : List Dataset) :
    ((execute_prompt_llm_post execQ llm datasets).1 = .error .unsafeSql
      ↔ dangerousKeywords.any (fun kw => containsSub kw (upperStr llm.sql)) = true)
    ∧ ((execute_prompt_llm_post execQ llm datasets).1 = .error .unsafeSql →
        (execute_prompt_llm_post execQ llm datasets).2 = []) := by
  unfold execute_prompt_llm_post is_safe_sql
  cases h : dangerousKeywords.any (fun kw => containsSub kw (upperStr llm.sql)) with
  | true => simp
  | false =>
    simp only [Bool.not_false, Bool.not_true, if_false]
    cases hq : execQ llm.sql <;> simp

/-- Witness for C2: the spec's own example statement
`SELECT * FROM campaigns; DROP TABLE campaigns;` is rejected as unsafe. -/
theorem unsafe_sql_rejection_iff_witness :
    (execute_prompt_llm_post execOk
      ⟨"SELECT * FROM campaigns; DROP TABLE campaigns;".data, none, none⟩ [dsAcme]).1
      = .error .unsafeSql :=
  (unsafe_sql_rejection_iff execOk
    ⟨"SELECT * FROM campaigns; DROP TABLE campaigns;".data, none, none⟩ [dsAcme]).1.mpr
    (by decide)

/-- C4.  Every prompt whose lower-cased text contains one of the
grouping/breakdown disqualifier markers makes `detect_kpi_metrics`
return the empty list, even when a metric keyword is present. -/
theorem detect_disqualifier_empty (prompt : Str)
    (hd : disqualifiers.any (fun t => containsSub t (lowerStr prompt)) = true) :
    detect_kpi_metrics prompt = [] := by
  simp only [detect_kpi_metrics, hd]
  split <;> simp

/-- Witness for C4: the spec's example "revenue by channel" contains a
metric keyword and the marker " by ", and is disqualified. -/
theorem detect_disqualifier_empty_witness :
    detect_kpi_metrics "revenue by channel".data = [] :=
  detect_disqualifier_empty "revenue by channel".data (by decide)

/-- C7.  On the LLM path, when execution fails with a "no such column" /
"no such table" class of store error and the attributed table has a
non-empty column list, the raised error is the enriched one, and its
message contains the attributed table's column list joined by ", ". -/
theorem execution_error_enriched (execQ : Str → Except Str (List Row))
    (llm : LlmResult) (datasets : List Dataset) (msg : Str) (t : Dataset)
    (hsafe : is_safe_sql llm.sql = true)
    (hext : extract_table_from_sql llm.sql datasets = some t)
    (hexec : execQ llm.sql = .error msg)
    (hph : containsSub "no such column".data (lowerStr msg) = true
         ∨ containsSub "no such table".data (lowerStr msg) = true)
    (hcols : t.columns ≠ []) :
    (execute_prompt_llm_post execQ llm datasets).1
      = .error (.sqlExecution (execution_error_message msg (some t)))
    ∧ containsSub (List.intercalate ", ".data t.columns)
        (execution_error_message msg (some t)) = true := by
  have hor : (containsSub "no such column".data (lowerStr msg)
      || containsSub "no such table".data (lowerStr msg)) = true := by
    cases hph with
    | inl h => simp [h]
    | inr h => simp [h]
  have hne : t.columns.isEmpty = false := by
    cases hc : t.columns with
    | nil => exact absurd hc hcols
    | cons a l => rfl
  constructor
  · unfold execute_prompt_llm_post
    rw [hsafe, hext, hexec]
    simp
  · unfold execution_error_message
    simp only [Option.map_some', Option.getD_some, hor, hne, Bool.not_false,
      Bool.true_and, if_true]
    exact containsSub_append_self _ _

/-- Witness for C7: the spec's end-to-end scenario — the LLM returns
`SELECT nonexistent_col FROM acme_campaigns_2024 LIMIT 50`, the store
fails with "no such column", and the raised message contains the literal
string "date, revenue, orders". -/
theorem execution_error_enriched_witness :
    (execute_prompt_llm_post (fun _ => .error "no such column: nonexistent_col".data)
        ⟨"SELECT nonexistent_col FROM acme_campaigns_2024 LIMIT 50".data,
          some "llama3".data, some "ollama".data⟩ [dsAcme]).1
      = .error (.sqlExecution (execution_error_message
          "no such column: nonexistent_col".data (some dsAcme)))
    ∧ containsSub (List.intercalate ", ".data dsAcme.columns)
        (execution_error_message "no such column: nonexistent_col".data (some dsAcme)) = true :=
  execution_error_enriched (fun _ => .error "no such column: nonexistent_col".data)
    ⟨"SELECT nonexistent_col FROM acme_campaigns_2024 LIMIT 50".data,
      some "llama3".data, some "ollama".data⟩ [dsAcme]
    "no such column: nonexistent_col".data dsAcme
    (by decide) (by decide) rfl (Or.inl (by decide)) (by decide)

/-- C10.  Table attribution is total over non-empty registries: when no
registered table name occurs in the generated SQL (neither uppercased as
a substring of the uppercased SQL nor double-quoted in the raw SQL),
`_extract_table_from_sql` falls back to the first registered dataset. -/
theorem extract_table_fallback_first (sql : Str) (d0 : Dataset) (rest : List Dataset)
    (hnone : ∀ d ∈ d0 :: rest,
      (containsSub (upperStr d.table_name) (upperStr sql)
        || containsSub (quoteStr d.table_name) sql) = false) :
    extract_table_from_sql sql (d0 :: rest) = some d0 := by
  unfold extract_table_from_sql
  have hfind : (d0 :: rest).find? (fun d =>
      containsSub (upperStr d.table_name) (upperStr sql)
        || containsSub (quoteStr d.table_name) sql) = none := by
    rw [List.find?_eq_none]
    intro x hx
    simp [hnone x hx]
  rw [hfind]
  rfl

/-- Witness for C10: a generated statement mentioning no registered
table is attributed to the first registered dataset. -/
theorem extract_table_fallback_first_witness :
    extract_table_from_sql "SELECT 1".data (dsAcme :: [dsUpd]) = some dsAcme :=
  extract_table_fallback_first "SELECT 1".data dsAcme [dsUpd] (by decide)

/-- Counterexample to C1: the heuristic fallback path submits its
template query to the store without the safety check, and for the
registered table `campaign_updates` that statement fails `_is_safe_sql`
(its uppercase form contains UPDATE), yet it is executed. -/
theorem heuristic_executes_unchecked_sql :
    (build_query dsUpd)
      ∈ (execute_prompt execOk genNone bmHead kpiZero false
          "show the data".data [dsUpd]).2
    ∧ is_safe_sql (build_query dsUpd) = false := by decide

/-- C1 (amended).  Only the LLM-generated statement is guarded: the
post-generation stage of the LLM path executes a statement only if it
passed the safety check (every statement in its store trace satisfies
`_is_safe_sql`); the heuristic path enjoys no such guarantee. -/
theorem llm_post_trace_safe (execQ : Str → Except Str (List Row))
    (llm : LlmResult) (datasets : List Dataset) (s : Str)
    (hs : s ∈ (execute_prompt_llm_post execQ llm datasets).2) :
    is_safe_sql s = true := by
  unfold execute_prompt_llm_post at hs
  cases hsafe : is_safe_sql llm.sql with
  | false => rw [hsafe] at hs; simp at hs
  | true =>
    rw [hsafe] at hs
    simp only [Bool.not_true, Bool.false_eq_true, if_false] at hs
    cases hq : execQ llm.sql with
    | error m =>
      rw [hq] at hs
      simp only [List.mem_singleton] at hs
      rw [hs]; exact hsafe
    | ok rows =>
      rw [hq] at hs
      simp only [List.mem_singleton] at hs
      rw [hs]; exact hsafe

/-- Witness for the amended C1: a safely generated statement appears in
the post-stage trace and indeed passes the check. -/
theorem llm_post_trace_safe_witness :
    is_safe_sql "SELECT * FROM \"acme_campaigns_2024\" LIMIT 50".data = true :=
  llm_post_trace_safe execOk
    ⟨"SELECT * FROM \"acme_campaigns_2024\" LIMIT 50".data,
      some "llama3".data, some "ollama".data⟩ [dsAcme]
    "SELECT * FROM \"acme_campaigns_2024\" LIMIT 50".data (by decide)

/-- Counterexample to C3: "kpi by channel" contains the literal phrase
"kpi", yet `detect_kpi_metrics` returns the empty list (the grouping
disqualifier " by " overrides the all-metrics override). -/
theorem kpi_phrase_disqualified :
    containsSub "kpi".data (lowerStr "kpi by channel".data) = true
    ∧ detect_kpi_metrics "kpi by channel".data = [] := by decide

/-- C3 (amended).  A prompt containing "kpi" or "all metrics" selects
all five known metric kinds provided no grouping/breakdown disqualifier
occurs in it and the ambiguity guard does not fire (for "kpi" prompts
the guard never fires, "kpi" being itself a summary cue). -/
theorem kpi_phrase_selects_all_metrics (prompt : Str)
    (hk : (containsSub "kpi".data (lowerStr prompt)
        || containsSub "all metrics".data (lowerStr prompt)) = true)
    (hd : disqualifiers.any (fun t => containsSub t (lowerStr prompt)) = false)
    (hg : summaryCues.any (fun c => containsSub c (lowerStr prompt)) = true
        ∨ (pyWords (lowerStr prompt)).length ≤ 8) :
    detect_kpi_metrics prompt = allFiveMetrics := by
  have hguard : (!(summaryCues.any (fun c => containsSub c (lowerStr prompt)))
      && decide (8 < (pyWords (lowerStr prompt)).length)) = false := by
    cases hg with
    | inl h => simp [h]
    | inr h => simp [Nat.not_lt.mpr h]
  simp only [detect_kpi_metrics, hk, hd, hguard, if_true, if_false,
    Bool.false_eq_true, allFiveMetrics, List.isEmpty_cons]

/-- Witness for the amended C3: "show kpi summary" yields all five. -/
theorem kpi_phrase_selects_all_metrics_witness :
    detect_kpi_metrics "show kpi summary".data = allFiveMetrics :=
  kpi_phrase_selects_all_metrics "show kpi summary".data
    (by decide) (by decide) (Or.inl (by decide))

/-- Counterexample to C5: `c5prompt` has 10 words, contains none of the
six cue words the claim lists, yet `detect_kpi_metrics` returns a
non-empty list — the source's cue list additionally contains "overall",
which this prompt does contain. -/
theorem spec_cue_list_incomplete :
    specSummaryCues.all (fun c => !(containsSub c (lowerStr c5prompt))) = true
    ∧ 8 < (pyWords (lowerStr c5prompt)).length
    ∧ detect_kpi_metrics c5prompt ≠ [] := by decide

/-- C5 (amended).  With the source's full cue list — "total", "overall",
"kpi", "overview", "dashboard", "summary", "aggregate" — a prompt
containing no cue and more than 8 words is always mapped to the empty
metric list. -/
theorem ambiguity_guard_empty (prompt : Str)
    (hc : summaryCues.any (fun c => containsSub c (lowerStr prompt)) = false)
    (hw : 8 < (pyWords (lowerStr prompt)).length) :
    detect_kpi_metrics prompt = [] := by
  have hguard : (!(summaryCues.any (fun c => containsSub c (lowerStr prompt)))
      && decide (8 < (pyWords (lowerStr prompt)).length)) = true := by
    simp [hc, hw]
  simp only [detect_kpi_metrics, hguard, if_true]
  simp only [ite_self]

/-- Witness for the amended C5: a 10-word prompt without any cue word
returns no metrics even though it mentions revenue. -/
theorem ambiguity_guard_empty_witness :
    detect_kpi_metrics
      "revenue numbers from last year and the year before that".data = [] :=
  ambiguity_guard_empty
    "revenue numbers from last year and the year before that".data
    (by decide) (by decide)

/-- Counterexample to C6: on the LLM path the provenance tag is the
provider name reported by the gateway — here "ollama" — which is not
one of the three tags "kpi" / "llm" / "heuristic" the claim allows. -/
theorem generated_by_is_provider_name :
    (execute_prompt execOk genOllama bmHead kpiZero true c6prompt [dsAcme]).1
      = .ok c6result
    ∧ c6result.generated_by ∉ ["kpi".data, "llm".data, "heuristic".data] :=
  ⟨by rfl, by decide⟩

/-- C6 (amended).  The provenance tag of a successful resolution is
"kpi" on the KPI shortcut, "heuristic" on the fallback path, and on the
LLM path the provider tag from the gateway reply ("openai", "anthropic"
or "ollama"; the literal "llm" only as a default for a reply missing the
provider key). -/
theorem generated_by_provenance (execQ : Str → Except Str (List Row))
    (gen : Str → List Dataset → List Row → Except Str LlmResult)
    (bestMatch : Str → List Str → Option Str) (kpiVal : Str → Str)
    (use_llm : Bool) (prompt : Str) (datasets : List Dataset) (r : PromptResult)
    (hgen : ∀ p ds sr res, gen p ds sr = .ok res →
        res.provider = some "openai".data ∨ res.provider = some "anthropic".data
          ∨ res.provider = some "ollama".data)
    (hok : (execute_prompt execQ gen bestMatch kpiVal use_llm prompt datasets).1
        = .ok r) :
    r.generated_by ∈ ["kpi".data, "heuristic".data,
      "openai".data, "anthropic".data, "ollama".data] := by
  unfold execute_prompt at hok
  by_cases hde : datasets.isEmpty = true
  · rw [if_pos hde] at hok
    simp at hok
  · rw [if_neg hde] at hok
    simp only [] at hok
    by_cases hm : (!(detect_kpi_metrics prompt).isEmpty) = true
    · rw [if_pos hm] at hok
      simp only [Except.ok.injEq] at hok
      rw [← hok]
      left
    · rw [if_neg hm] at hok
      by_cases hu : use_llm = true
      · rw [if_pos hu] at hok
        obtain ⟨llm, hg, hgb⟩ :=
          llm_path_ok_provider execQ gen prompt datasets r hok
        rcases hgen _ _ _ _ hg with hp | hp | hp <;>
          rw [hgb, hp] <;> simp
      · rw [if_neg hu] at hok
        rw [heuristic_ok_generated_by execQ bestMatch prompt datasets r hok]
        simp

/-- Witness for the amended C6: the `genOllama` gateway run lands on the
tag "ollama", which the amended enumeration admits. -/
theorem generated_by_provenance_witness :
    c6result.generated_by ∈ ["kpi".data, "heuristic".data,
      "openai".data, "anthropic".data, "ollama".data] :=
  generated_by_provenance execOk genOllama bmHead kpiZero true c6prompt [dsAcme]
    c6result
    (fun p ds sr res h => by cases h; exact Or.inr (Or.inr rfl))
    (by rfl)

/-- Counterexample to C8: with one well-formed row and one row whose
serialized columns cell is malformed, `_load_registry` raises instead of
skipping the bad row — no datasets are returned at all. -/
theorem malformed_columns_fails_load :
    load_registry jsonFail [regRowGood, regRowBad] = .error "not json".data := by
  rfl

/-- C8 (amended).  The deserialization loop of `_load_registry` has no
per-row exception handling: if any row's columns cell fails to parse,
the whole registry load fails (and with it the prompt resolution). -/
theorem load_registry_aborts_on_malformed (jsonLoads : Str → Option (List Str))
    (rows : List RegistryRow) (r : RegistryRow) (e : Str)
    (hr : r ∈ rows) (hbad : parse_registry_row jsonLoads r = .error e) :
    registryLoadOk (load_registry jsonLoads rows) = false := by
  induction rows with
  | nil => cases hr
  | cons x xs ih =>
    rw [List.mem_cons] at hr
    unfold load_registry
    cases hr with
    | inl h =>
      rw [← h, hbad]
      rfl
    | inr h =>
      cases hx : parse_registry_row jsonLoads x with
      | error e2 => rfl
      | ok d =>
        have hxs := ih h
        cases hl : load_registry jsonLoads xs with
        | error e3 => rfl
        | ok ds =>
          rw [hl] at hxs
          simp [registryLoadOk] at hxs

/-- Witness for the amended C8: the two-row registry with one malformed
row fails to load. -/
theorem load_registry_aborts_on_malformed_witness :
    registryLoadOk (load_registry jsonFail [regRowGood, regRowBad]) = false :=
  load_registry_aborts_on_malformed jsonFail [regRowGood, regRowBad]
    regRowBad "not json".data (by decide) rfl

/-- Counterexample to C9: with `max_tables = 0` and one available table,
`_filter_relevant_tables` still returns one entry, violating the "at
most `max_tables` entries" bound at 0. -/
theorem filter_tables_zero_bound_fails :
    filter_relevant_tables "x".data [dsAcme] 0 = [dsAcme]
    ∧ ¬((filter_relevant_tables "x".data [dsAcme] 0).length ≤ 0) := by decide

/-- C9 (amended).  For a non-empty table list the filter returns at
least one entry and at most `max 1 max_tables` entries: the `max_tables`
bound holds whenever `max_tables ≥ 1`, while `max_tables = 0` still
yields exactly one entry via the first-table fallback. -/
theorem filter_tables_cardinality (prompt : Str) (available : List Dataset)
    (max_tables : Nat) (hne : available ≠ []) :
    1 ≤ (filter_relevant_tables prompt available max_tables).length
    ∧ (filter_relevant_tables prompt available max_tables).length
        ≤ max 1 max_tables := by
  obtain ⟨a, l, rfl⟩ := List.exists_cons_of_ne_nil hne
  have hT := top_relevant_length prompt (a :: l) max_tables
  unfold filter_relevant_tables
  cases hTc : top_relevant prompt (a :: l) max_tables with
  | nil =>
    simp only [hTc, List.isEmpty_nil, List.isEmpty_cons, Bool.not_false,
      Bool.and_true, Bool.true_and, if_true, List.take_cons, List.take_zero]
    constructor
    · simp
    · simp
  | cons d ds =>
    simp only [hTc, List.isEmpty_cons, Bool.false_and, Bool.false_eq_true,
      if_false]
    constructor
    · simp
    · have hlen : (d :: ds).length ≤ max_tables := by
        rw [hTc] at hT
        omega
      exact le_trans hlen (Nat.le_max_right 1 max_tables)

/-- Witness for the amended C9: one table, default `max_tables = 6`. -/
theorem filter_tables_cardinality_witness :
    1 ≤ (filter_relevant_tables "x".data [dsAcme] 6).length
    ∧ (filter_relevant_tables "x".data [dsAcme] 6).length ≤ max 1 6 :=
  filter_tables_cardinality "x".data [dsAcme] 6 (by decide)

end MarketingAgent

